import Mathlib

/-!
Verification of a departmental record-keeping web application
(FastAPI, `src/main.py` and `src/models.py`).

The persistence layer is embedded as a `Store` of lists of records, one
list per table, in insertion order (SQLAlchemy autoincrement primary keys
are modelled by explicit `id` fields assigned at insertion).  The session
cookie is embedded as an `Option String` holding the logged-in username.
Each request handler from `src/main.py` becomes a pure function from the
session and the store to a `Response`, the resulting store, and a log of
the persistence-layer accesses it performed (used for frame properties).
Dates are embedded as integers counting days; `datetime.date.today()`
becomes an explicit `today : Int` parameter, and bcrypt hashing becomes an
explicit `hash : String → String` parameter (`verify` likewise for login).
`random.choice` in the seeding routine becomes an explicit `rand : Nat →
String` parameter indexed by the insertion sequence number.
-/

/-- `models.User`: id, unique username, bcrypt password hash, full name,
role (one of "doctor", "head", "admin"). -/
structure User where
  id : Nat
  username : String
  hashed_password : String
  full_name : String
  role : String
deriving Repr, DecidableEq

/-- `models.Meeting`: id, title, date, meeting type. -/
structure Meeting where
  id : Nat
  title : String
  date : Int
  meeting_type : String
deriving Repr, DecidableEq

/-- `models.Attendance`: join record linking a user to a meeting with a
status (one of "Present", "Absent", "Excused"). -/
structure Attendance where
  id : Nat
  meeting_id : Nat
  user_id : Nat
  status : String
deriving Repr, DecidableEq

/-- `models.ClinicSlot`: a recurring weekly time block assigned to a user. -/
structure ClinicSlot where
  id : Nat
  day_of_week : String
  start_time : String
  end_time : String
  user_id : Nat
deriving Repr, DecidableEq

/-- `models.ServiceEntry`: a logged procedure performed by a user on a date. -/
structure ServiceEntry where
  id : Nat
  date : Int
  procedure_name : String
  user_id : Nat
  notes : String
deriving Repr, DecidableEq

/-- `models.ResearchItem`: a tracked publication/presentation/trial. -/
structure ResearchItem where
  id : Nat
  title : String
  research_type : String
  status : String
  user_id : Nat
deriving Repr, DecidableEq

/-- The relational store: one list per table, in insertion order. -/
structure Store where
  users : List User
  meetings : List Meeting
  attendance : List Attendance
  clinic_slots : List ClinicSlot
  service_entries : List ServiceEntry
  research_items : List ResearchItem
deriving Repr, DecidableEq

/-- The store with all six tables empty. -/
def emptyStore : Store :=
  { users := [], meetings := [], attendance := [], clinic_slots := [],
    service_entries := [], research_items := [] }

/-- The session cookie state: `request.session.get("user")`, i.e. the
logged-in username when present. -/
abbrev Sess := Option String

/-- One access against the persistence layer, recorded so that frame
properties ("performs no data access") can be stated. -/
inductive Access where
  | readUsers
  | readMeetings
  | readAttendance
  | readClinicSlots
  | readServiceEntries
  | readResearchItems
  | writeServiceEntry
deriving Repr, DecidableEq

/-- A handler's response: a redirect with a status code, or one of the
rendered template pages together with the data handed to the template. -/
inductive Response where
  | redirect (url : String) (code : Nat)
  | loginPage (error : Option String)
  | dashboardPage (user : User) (meetings clinics procedures research : Nat)
  | meetingsPage (user : User) (attendance : List Attendance)
  | schedulePage (user : User) (slots : List ClinicSlot)
  | servicesPage (user : User) (entries : List ServiceEntry)
  | researchPage (user : User) (items : List ResearchItem)
  | healthOk
deriving Repr, DecidableEq

/-- `get_current_user` in `src/main.py`: reads the username from the
session; `if not username` (absent or empty string) yields `None` with no
database access; otherwise the first user with that username, via
`db.query(models.User).filter(...).first()`. -/
def get_current_user (sess : Sess) (st : Store) : Option User × List Access :=
  match sess with
  | none => (none, [])
  | some username =>
    if username = "" then (none, [])
    else (st.users.find? (fun u => u.username == username), [Access.readUsers])

/-- Next autoincrement primary key for a table whose existing ids are `ids`. -/
def nextId (ids : List Nat) : Nat := ids.foldr max 0 + 1

/-- Default user record, used only as the out-of-range default of the
total list indexing that embeds Python's `docs[i % 5]` (never reached:
`docs` always has 5 elements). -/
def dummyUser : User :=
  { id := 0, username := "", hashed_password := "", full_name := "", role := "" }

/-- The seven users inserted by `seed_data` (ids 1..7, since the guard
ensures the user table is empty). -/
def seedUsers (hash : String → String) : List User :=
  [ { id := 1, username := "doctor1", hashed_password := hash "pass",
      full_name := "Dr. Smith", role := "doctor" },
    { id := 2, username := "doctor2", hashed_password := hash "pass",
      full_name := "Dr. Jones", role := "doctor" },
    { id := 3, username := "doctor3", hashed_password := hash "pass",
      full_name := "Dr. Williams", role := "doctor" },
    { id := 4, username := "doctor4", hashed_password := hash "pass",
      full_name := "Dr. Brown", role := "doctor" },
    { id := 5, username := "doctor5", hashed_password := hash "pass",
      full_name := "Dr. Davis", role := "doctor" },
    { id := 6, username := "head", hashed_password := hash "pass",
      full_name := "Dr. Head", role := "head" },
    { id := 7, username := "admin", hashed_password := hash "pass",
      full_name := "Admin User", role := "admin" } ]

/-- `seed_data` in `src/main.py`: returns the store unchanged when any
user row exists; otherwise inserts 7 users, 15 meetings, one attendance
row per (meeting, doctor) pair, 10 clinic slots, 8 service entries and 5
research items. -/
def seed_data (hash : String → String) (rand : Nat → String) (today : Int)
    (st : Store) : Store :=
  if st.users.length > 0 then st
  else
    let users := seedUsers hash
    let docs := users.filter (fun u => u.role == "doctor")
    let types := ["Department", "CME", "Hospital-wide"]
    let m0 := nextId (st.meetings.map (fun m => m.id))
    let meetings := (List.range 15).map (fun i =>
      { id := m0 + i, title := "Meeting " ++ toString (i + 1),
        date := today - 2 * i, meeting_type := types.getD (i % 3) "" })
    let a0 := nextId (st.attendance.map (fun a => a.id))
    let pairs := meetings.flatMap (fun m => docs.map (fun d => (m, d)))
    let attendance := pairs.enum.map (fun p =>
      { id := a0 + p.1, meeting_id := p.2.1.id, user_id := p.2.2.id,
        status := rand p.1 })
    let days := ["Monday", "Tuesday", "Wednesday", "Thursday", "Friday"]
    let s0 := nextId (st.clinic_slots.map (fun s => s.id))
    let slots := (List.range 10).map (fun i =>
      { id := s0 + i, day_of_week := days.getD (i % 5) "",
        start_time := toString (8 + i % 4) ++ ":00",
        end_time := toString (12 + i % 4) ++ ":00",
        user_id := (docs.getD (i % 5) dummyUser).id })
    let procedures := ["Appendectomy", "Cholecystectomy", "Hernia Repair",
      "Consultation", "Teaching Rounds"]
    let e0 := nextId (st.service_entries.map (fun e => e.id))
    let entries := (List.range 8).map (fun i =>
      { id := e0 + i, date := today - i,
        procedure_name := procedures.getD (i % 5) "",
        user_id := (docs.getD (i % 5) dummyUser).id,
        notes := "Routine procedure " ++ toString (i + 1) })
    let research := [("New Techniques in Surgery", "Publication", "Published"),
      ("Annual Medical Conference", "Presentation", "Submitted"),
      ("Cardiology Trial Phase 1", "Trial", "Approved"),
      ("Pediatric Care Review", "Publication", "Submitted"),
      ("Grand Rounds Presentation", "Presentation", "Published")]
    let r0 := nextId (st.research_items.map (fun r => r.id))
    let items := research.enum.map (fun p =>
      { id := r0 + p.1, title := p.2.1, research_type := p.2.2.1,
        status := p.2.2.2, user_id := (docs.getD (p.1 % 5) dummyUser).id })
    { users := st.users ++ users,
      meetings := st.meetings ++ meetings,
      attendance := st.attendance ++ attendance,
      clinic_slots := st.clinic_slots ++ slots,
      service_entries := st.service_entries ++ entries,
      research_items := st.research_items ++ items }

/-- `GET /`: redirect to the login page. -/
def root : Response := Response.redirect "/login" 307

/-- `GET /health`. -/
def health : Response := Response.healthOk

/-- `GET /login`: the login form with no error message. -/
def login_page : Response := Response.loginPage none

/-- `POST /login` in `src/main.py`: looks the user up by username; on a
missing user or a failed password check, re-renders the form with an
error and leaves the session unchanged; on success stores the username in
the session and redirects (303) to the dashboard. -/
def login (verify : String → String → Bool) (username password : String)
    (sess : Sess) (st : Store) : Response × Sess × Store × List Access :=
  match st.users.find? (fun u => u.username == username) with
  | none => (Response.loginPage (some "Invalid credentials"), sess, st, [Access.readUsers])
  | some u =>
    if verify password u.hashed_password then
      (Response.redirect "/dashboard" 303, some u.username, st, [Access.readUsers])
    else
      (Response.loginPage (some "Invalid credentials"), sess, st, [Access.readUsers])

/-- `GET /logout`: clears the session and redirects to the login page. -/
def logout (_ : Sess) : Response × Sess := (Response.redirect "/login" 307, none)

/-- `GET /dashboard` in `src/main.py`: redirect to `/login` when
anonymous; otherwise render the counts of all meetings, clinic slots,
service entries and research items. -/
def dashboard (sess : Sess) (st : Store) : Response × Store × List Access :=
  let gcu := get_current_user sess st
  match gcu.1 with
  | none => (Response.redirect "/login" 307, st, gcu.2)
  | some user =>
    (Response.dashboardPage user st.meetings.length st.clinic_slots.length
      st.service_entries.length st.research_items.length,
     st,
     gcu.2 ++ [Access.readMeetings, Access.readClinicSlots,
       Access.readServiceEntries, Access.readResearchItems])

/-- `GET /meetings` in `src/main.py`: redirect when anonymous; all
attendance rows for role "admin" or "head"; otherwise only the rows whose
`user_id` is the current user's id. -/
def meetings (sess : Sess) (st : Store) : Response × Store × List Access :=
  let gcu := get_current_user sess st
  match gcu.1 with
  | none => (Response.redirect "/login" 307, st, gcu.2)
  | some user =>
    if user.role == "admin" || user.role == "head" then
      (Response.meetingsPage user st.attendance, st, gcu.2 ++ [Access.readAttendance])
    else
      (Response.meetingsPage user (st.attendance.filter (fun a => a.user_id == user.id)),
       st, gcu.2 ++ [Access.readAttendance])

/-- `GET /schedule` in `src/main.py`: redirect when anonymous; otherwise
all clinic slots. -/
def schedule (sess : Sess) (st : Store) : Response × Store × List Access :=
  let gcu := get_current_user sess st
  match gcu.1 with
  | none => (Response.redirect "/login" 307, st, gcu.2)
  | some user =>
    (Response.schedulePage user st.clinic_slots, st, gcu.2 ++ [Access.readClinicSlots])

/-- The ordering used by `GET /services`: `a` before `b` when `b`'s date
is at most `a`'s (date descending). -/
def dateGe (a b : ServiceEntry) : Prop := b.date ≤ a.date

instance : DecidableRel dateGe := fun a b => inferInstanceAs (Decidable (b.date ≤ a.date))

instance : IsTotal ServiceEntry dateGe := ⟨fun a b => le_total b.date a.date⟩

instance : IsTrans ServiceEntry dateGe := ⟨fun _ _ _ h1 h2 => le_trans h2 h1⟩

/-- `order_by(models.ServiceEntry.date.desc())`: the table rows sorted by
date descending; rows with equal dates keep their insertion order (stable
sort). -/
def orderByDateDesc (l : List ServiceEntry) : List ServiceEntry :=
  List.insertionSort dateGe l

/-- `GET /services` in `src/main.py`: redirect when anonymous; otherwise
all service entries ordered by date descending. -/
def services (sess : Sess) (st : Store) : Response × Store × List Access :=
  let gcu := get_current_user sess st
  match gcu.1 with
  | none => (Response.redirect "/login" 307, st, gcu.2)
  | some user =>
    (Response.servicesPage user (orderByDateDesc st.service_entries), st,
     gcu.2 ++ [Access.readServiceEntries])

/-- `POST /services` in `src/main.py`: redirect when anonymous; otherwise
insert one service entry dated today, owned by the current user, with the
submitted procedure name and notes, then redirect (303) to `/services`. -/
def add_service (procedure_name notes : String) (today : Int) (sess : Sess)
    (st : Store) : Response × Store × List Access :=
  let gcu := get_current_user sess st
  match gcu.1 with
  | none => (Response.redirect "/login" 307, st, gcu.2)
  | some user =>
    let new_entry : ServiceEntry :=
      { id := nextId (st.service_entries.map (fun e => e.id)),
        date := today, procedure_name := procedure_name,
        user_id := user.id, notes := notes }
    (Response.redirect "/services" 303,
     { st with service_entries := st.service_entries ++ [new_entry] },
     gcu.2 ++ [Access.writeServiceEntry])

/-- `GET /research` in `src/main.py`: redirect when anonymous; otherwise
all research items. -/
def research (sess : Sess) (st : Store) : Response × Store × List Access :=
  let gcu := get_current_user sess st
  match gcu.1 with
  | none => (Response.redirect "/login" 307, st, gcu.2)
  | some user =>
    (Response.researchPage user st.research_items, st, gcu.2 ++ [Access.readResearchItems])

/-! ### Concrete instantiations used by witnesses -/

/-- A concrete stand-in for bcrypt hashing (the identity function). -/
def demoHash (s : String) : String := s

/-- A concrete stand-in for `random.choice` in the seeding routine. -/
def demoRand (_ : Nat) : String := "Present"

/-- The store obtained by seeding the empty store on day 0. -/
def seededDemo : Store := seed_data demoHash demoRand 0 emptyStore

/-- The seeded `doctor1` user as it appears under `demoHash`. -/
def demoDoctor1 : User :=
  { id := 1, username := "doctor1", hashed_password := "pass",
    full_name := "Dr. Smith", role := "doctor" }

/-- The seeded `admin` user as it appears under `demoHash`. -/
def demoAdmin : User :=
  { id := 7, username := "admin", hashed_password := "pass",
    full_name := "Admin User", role := "admin" }

/-- A user whose role is outside the documented set, for the default
branch of the meetings filter. -/
def nurseUser : User :=
  { id := 42, username := "nurse1", hashed_password := "x",
    full_name := "Nurse N", role := "nurse" }

/-- A store holding `nurseUser` and two attendance rows, one of them
owned by the nurse. -/
def nurseStore : Store :=
  { emptyStore with
    users := [nurseUser],
    attendance := [ { id := 1, meeting_id := 1, user_id := 42, status := "Present" },
                    { id := 2, meeting_id := 1, user_id := 7, status := "Absent" } ] }

/-- A store with one user row and every other table empty. -/
def oneUserStore : Store := { emptyStore with users := [dummyUser] }

/-- The entry list handed to the services template, `[]` on any other
response. -/
def servicesEntries : Response → List ServiceEntry
  | Response.servicesPage _ es => es
  | _ => []

/-! ### Helper lemmas -/

/-- Session resolution only reads the user table, so changing the service
entry table does not affect it. -/
theorem get_current_user_set_service_entries (sess : Sess) (st : Store)
    (l : List ServiceEntry) :
    get_current_user sess { st with service_entries := l } = get_current_user sess st := by
  cases sess <;> rfl

/-- Unfolding `seed_data` when a user row exists: the store is returned
unchanged. -/
theorem seed_data_eq_of_users_ne_nil (hash : String → String) (rand : Nat → String)
    (today : Int) (st : Store) (h : st.users ≠ []) :
    seed_data hash rand today st = st := by
  unfold seed_data
  rw [if_pos (List.length_pos.mpr h)]

/-- Unfolding the user table of `seed_data` when no user row exists. -/
theorem seed_data_users_eq_of_users_nil (hash : String → String) (rand : Nat → String)
    (today : Int) (st : Store) (h : st.users = []) :
    (seed_data hash rand today st).users = st.users ++ seedUsers hash := by
  unfold seed_data
  rw [if_neg (by simp [h])]

/-- Unfolding `add_service` on an authenticated request. -/
theorem add_service_eq (procedure_name notes : String) (today : Int) (sess : Sess)
    (st : Store) (user : User) (h : (get_current_user sess st).1 = some user) :
    add_service procedure_name notes today sess st =
      (Response.redirect "/services" 303,
       { st with service_entries := st.service_entries ++
           [{ id := nextId (st.service_entries.map (fun e => e.id)),
              date := today, procedure_name := procedure_name,
              user_id := user.id, notes := notes }] },
       (get_current_user sess st).2 ++ [Access.writeServiceEntry]) := by
  simp only [add_service, h]

/-- Unfolding `services` on an authenticated request. -/
theorem services_eq (sess : Sess) (st : Store) (user : User)
    (h : (get_current_user sess st).1 = some user) :
    services sess st =
      (Response.servicesPage user (orderByDateDesc st.service_entries), st,
       (get_current_user sess st).2 ++ [Access.readServiceEntries]) := by
  simp only [services, h]

/-- The services ordering is sorted with respect to `dateGe`. -/
theorem sorted_orderByDateDesc (l : List ServiceEntry) :
    List.Sorted dateGe (orderByDateDesc l) :=
  List.sorted_insertionSort dateGe l

/-- The services ordering is a permutation, so membership is preserved. -/
theorem mem_orderByDateDesc (a : ServiceEntry) (l : List ServiceEntry) :
    a ∈ orderByDateDesc l ↔ a ∈ l :=
  List.mem_insertionSort dateGe

/-! ### Claim theorems -/

/-- C1: on an authenticated `GET /meetings`, a user whose role is "admin"
or "head" receives every attendance row in the store, and a user whose
role is "doctor" receives exactly the attendance rows whose `user_id`
equals their own id. -/
theorem meetings_role_filtering (sess : Sess) (st : Store) (user : User)
    (h : (get_current_user sess st).1 = some user) :
    ((user.role = "admin" ∨ user.role = "head") →
      (meetings sess st).1 = Response.meetingsPage user st.attendance) ∧
    (user.role = "doctor" →
      (meetings sess st).1 = Response.meetingsPage user
        (st.attendance.filter (fun a => a.user_id == user.id))) := by
  constructor
  · rintro (hr | hr) <;> simp [meetings, h, hr]
  · intro hr
    simp [meetings, h, hr]

/-- C1 witness: the seeded admin sees all attendance rows of the seeded
store. -/
theorem meetings_role_filtering_witness :
    ((demoAdmin.role = "admin" ∨ demoAdmin.role = "head") →
      (meetings (some "admin") seededDemo).1 = Response.meetingsPage demoAdmin seededDemo.attendance) ∧
    (demoAdmin.role = "doctor" →
      (meetings (some "admin") seededDemo).1 = Response.meetingsPage demoAdmin
        (seededDemo.attendance.filter (fun a => a.user_id == demoAdmin.id))) :=
  meetings_role_filtering (some "admin") seededDemo demoAdmin (by rfl)

/-- C2: a `POST /login` whose username is not in the user table, or whose
password fails verification against the stored hash, leaves the session
unchanged and re-renders the login form with an error message; the
response is not a redirect. -/
theorem login_failure_no_session (verify : String → String → Bool)
    (username password : String) (sess : Sess) (st : Store)
    (h : ∀ u, st.users.find? (fun v => v.username == username) = some u →
         verify password u.hashed_password = false) :
    login verify username password sess st
      = (Response.loginPage (some "Invalid credentials"), sess, st, [Access.readUsers]) ∧
    ∀ url code, (login verify username password sess st).1 ≠ Response.redirect url code := by
  have heq : login verify username password sess st
      = (Response.loginPage (some "Invalid credentials"), sess, st, [Access.readUsers]) := by
    unfold login
    cases hf : st.users.find? (fun v => v.username == username) with
    | none => rfl
    | some u => simp [h u hf]
  exact ⟨heq, fun url code => by rw [heq]; simp⟩

/-- C2 witness: a failing password check on the seeded store re-renders
the login form and leaves the (empty) session unchanged. -/
theorem login_failure_no_session_witness :
    login (fun _ _ => false) "doctor1" "wrong" none seededDemo
      = (Response.loginPage (some "Invalid credentials"), none, seededDemo, [Access.readUsers]) ∧
    ∀ url code, (login (fun _ _ => false) "doctor1" "wrong" none seededDemo).1
      ≠ Response.redirect url code :=
  login_failure_no_session (fun _ _ => false) "doctor1" "wrong" none seededDemo
    (fun _ _ => rfl)

/-- C3: every protected route, requested with no session cookie, redirects
to `/login`, leaves the store unchanged, and performs no persistence-layer
access at all. -/
theorem unauthenticated_redirects_no_data_access (st : Store)
    (procedure_name notes : String) (today : Int) :
    dashboard none st = (Response.redirect "/login" 307, st, []) ∧
    meetings none st = (Response.redirect "/login" 307, st, []) ∧
    schedule none st = (Response.redirect "/login" 307, st, []) ∧
    services none st = (Response.redirect "/login" 307, st, []) ∧
    add_service procedure_name notes today none st = (Response.redirect "/login" 307, st, []) ∧
    research none st = (Response.redirect "/login" 307, st, []) :=
  ⟨rfl, rfl, rfl, rfl, rfl, rfl⟩

/-- C4: an authenticated `POST /services` appends exactly one service
entry, dated today and owned by the authenticated user, with the submitted
procedure name and notes; every other table is unchanged; and the response
is a 303 redirect to `/services`, not a rendered page. -/
theorem add_service_inserts_one_row (procedure_name notes : String) (today : Int)
    (sess : Sess) (st : Store) (user : User)
    (h : (get_current_user sess st).1 = some user) :
    add_service procedure_name notes today sess st =
      (Response.redirect "/services" 303,
       { st with service_entries := st.service_entries ++
           [{ id := nextId (st.service_entries.map (fun e => e.id)),
              date := today, procedure_name := procedure_name,
              user_id := user.id, notes := notes }] },
       (get_current_user sess st).2 ++ [Access.writeServiceEntry]) :=
  add_service_eq procedure_name notes today sess st user h

/-- C4 witness: `doctor1` posting a service entry on the seeded store. -/
theorem add_service_inserts_one_row_witness :
    add_service "X" "Y" 0 (some "doctor1") seededDemo =
      (Response.redirect "/services" 303,
       { seededDemo with service_entries := seededDemo.service_entries ++
           [{ id := nextId (seededDemo.service_entries.map (fun e => e.id)),
              date := 0, procedure_name := "X",
              user_id := demoDoctor1.id, notes := "Y" }] },
       (get_current_user (some "doctor1") seededDemo).2 ++ [Access.writeServiceEntry]) :=
  add_service_inserts_one_row "X" "Y" 0 (some "doctor1") seededDemo demoDoctor1 (by rfl)

/-- C8: a session naming a username absent from the user table resolves
to the anonymous result (`none`, not an error), and every protected route
then redirects to `/login` and leaves the store unchanged, exactly as for
an unauthenticated request. -/
theorem ghost_session_treated_as_anonymous (uname : String) (st : Store)
    (procedure_name notes : String) (today : Int)
    (h : st.users.find? (fun u => u.username == uname) = none) :
    (get_current_user (some uname) st).1 = none ∧
    (dashboard (some uname) st).1 = Response.redirect "/login" 307 ∧
    (dashboard (some uname) st).2.1 = st ∧
    (meetings (some uname) st).1 = Response.redirect "/login" 307 ∧
    (meetings (some uname) st).2.1 = st ∧
    (schedule (some uname) st).1 = Response.redirect "/login" 307 ∧
    (schedule (some uname) st).2.1 = st ∧
    (services (some uname) st).1 = Response.redirect "/login" 307 ∧
    (services (some uname) st).2.1 = st ∧
    (add_service procedure_name notes today (some uname) st).1 = Response.redirect "/login" 307 ∧
    (add_service procedure_name notes today (some uname) st).2.1 = st ∧
    (research (some uname) st).1 = Response.redirect "/login" 307 ∧
    (research (some uname) st).2.1 = st := by
  have hg : (get_current_user (some uname) st).1 = none := by
    unfold get_current_user
    by_cases he : uname = ""
    · simp [he]
    · simp [he, h]
  refine ⟨hg, ?_, ?_, ?_, ?_, ?_, ?_, ?_, ?_, ?_, ?_, ?_, ?_⟩ <;>
    simp [dashboard, meetings, schedule, services, add_service, research, hg]

/-- C8 witness: a session naming the absent username "ghost" on the
seeded store. -/
theorem ghost_session_treated_as_anonymous_witness :
    (get_current_user (some "ghost") seededDemo).1 = none ∧
    (dashboard (some "ghost") seededDemo).1 = Response.redirect "/login" 307 ∧
    (dashboard (some "ghost") seededDemo).2.1 = seededDemo ∧
    (meetings (some "ghost") seededDemo).1 = Response.redirect "/login" 307 ∧
    (meetings (some "ghost") seededDemo).2.1 = seededDemo ∧
    (schedule (some "ghost") seededDemo).1 = Response.redirect "/login" 307 ∧
    (schedule (some "ghost") seededDemo).2.1 = seededDemo ∧
    (services (some "ghost") seededDemo).1 = Response.redirect "/login" 307 ∧
    (services (some "ghost") seededDemo).2.1 = seededDemo ∧
    (add_service "X" "Y" 0 (some "ghost") seededDemo).1 = Response.redirect "/login" 307 ∧
    (add_service "X" "Y" 0 (some "ghost") seededDemo).2.1 = seededDemo ∧
    (research (some "ghost") seededDemo).1 = Response.redirect "/login" 307 ∧
    (research (some "ghost") seededDemo).2.1 = seededDemo :=
  ghost_session_treated_as_anonymous "ghost" seededDemo "X" "Y" 0 (by rfl)

/-- C9: an authenticated user whose role is neither "admin" nor "head" —
whatever the role string is — receives from `GET /meetings` exactly the
attendance rows whose `user_id` equals their own id. -/
theorem meetings_default_branch_filters (sess : Sess) (st : Store) (user : User)
    (h : (get_current_user sess st).1 = some user)
    (ha : user.role ≠ "admin") (hh : user.role ≠ "head") :
    (meetings sess st).1 = Response.meetingsPage user
      (st.attendance.filter (fun a => a.user_id == user.id)) := by
  simp [meetings, h, ha, hh]

/-- C9 witness: a user with the undocumented role "nurse" sees only their
own attendance rows. -/
theorem meetings_default_branch_filters_witness :
    (meetings (some "nurse1") nurseStore).1 = Response.meetingsPage nurseUser
      (nurseStore.attendance.filter (fun a => a.user_id == nurseUser.id)) :=
  meetings_default_branch_filters (some "nurse1") nurseStore nurseUser
    (by rfl) (by decide) (by decide)

/-- C10: when at least one user row exists, `seed_data` returns the store
unchanged — every table, even if the non-user tables are empty — because
its only guard is the user-row count. -/
theorem seed_data_frame_when_users_exist (hash : String → String)
    (rand : Nat → String) (today : Int) (st : Store) (h : st.users ≠ []) :
    seed_data hash rand today st = st :=
  seed_data_eq_of_users_ne_nil hash rand today st h

/-- C10 witness: a store with one user and all other tables empty is left
unchanged by seeding. -/
theorem seed_data_frame_when_users_exist_witness :
    seed_data demoHash demoRand 0 oneUserStore = oneUserStore :=
  seed_data_frame_when_users_exist demoHash demoRand 0 oneUserStore (by decide)

/-- C6: seeding is idempotent — running `seed_data` twice yields the same
store (in particular the same user table) as running it once — and it
never introduces a duplicate username: when the user table has distinct
usernames beforehand, it still does afterwards, because the routine
returns without inserting whenever any user row exists. -/
theorem seed_data_idempotent_users (hash : String → String) (rand : Nat → String)
    (today : Int) (st : Store) :
    seed_data hash rand today (seed_data hash rand today st) = seed_data hash rand today st ∧
    ((st.users.map (fun u => u.username)).Nodup →
      ((seed_data hash rand today st).users.map (fun u => u.username)).Nodup) := by
  by_cases hc : st.users = []
  · have h1 : (seed_data hash rand today st).users = st.users ++ seedUsers hash :=
      seed_data_users_eq_of_users_nil hash rand today st hc
    have hne : (seed_data hash rand today st).users ≠ [] := by
      rw [h1, hc]; simp [seedUsers]
    refine ⟨seed_data_eq_of_users_ne_nil hash rand today _ hne, ?_⟩
    intro _
    rw [h1, hc]
    simp [seedUsers]
  · rw [seed_data_eq_of_users_ne_nil hash rand today st hc]
    exact ⟨seed_data_eq_of_users_ne_nil hash rand today st hc, fun hd => hd⟩

/-- C6 witness: seeding the empty store twice equals seeding it once, and
the resulting usernames are pairwise distinct. -/
theorem seed_data_idempotent_users_witness :
    seed_data demoHash demoRand 0 (seed_data demoHash demoRand 0 emptyStore)
      = seed_data demoHash demoRand 0 emptyStore ∧
    ((seed_data demoHash demoRand 0 emptyStore).users.map (fun u => u.username)).Nodup :=
  ⟨(seed_data_idempotent_users demoHash demoRand 0 emptyStore).1,
   (seed_data_idempotent_users demoHash demoRand 0 emptyStore).2 (by decide)⟩

/-- C7: after seeding an empty store, any logged-in user's dashboard shows
15 meetings, 10 clinic slots, 8 service entries and 5 research items. -/
theorem dashboard_seeded_counts (hash : String → String) (rand : Nat → String)
    (today : Int) (sess : Sess) (user : User)
    (h : (get_current_user sess (seed_data hash rand today emptyStore)).1 = some user) :
    (dashboard sess (seed_data hash rand today emptyStore)).1 =
      Response.dashboardPage user 15 10 8 5 := by
  have hm : (seed_data hash rand today emptyStore).meetings.length = 15 := by
    simp [seed_data, emptyStore]
  have hcs : (seed_data hash rand today emptyStore).clinic_slots.length = 10 := by
    simp [seed_data, emptyStore]
  have hse : (seed_data hash rand today emptyStore).service_entries.length = 8 := by
    simp [seed_data, emptyStore]
  have hri : (seed_data hash rand today emptyStore).research_items.length = 5 := by
    simp [seed_data, emptyStore]
  simp [dashboard, h, hm, hcs, hse, hri]

/-- C7 witness: `doctor1` logged in on the concretely seeded store. -/
theorem dashboard_seeded_counts_witness :
    (dashboard (some "doctor1") (seed_data demoHash demoRand 0 emptyStore)).1 =
      Response.dashboardPage demoDoctor1 15 10 8 5 :=
  dashboard_seeded_counts demoHash demoRand 0 (some "doctor1") demoDoctor1 (by rfl)

/-- The entry constructed by `add_service` (`new_entry` in `src/main.py`):
dated today, owned by `user`, with the submitted procedure name and notes. -/
def new_entry (procedure_name notes : String) (today : Int) (user : User)
    (st : Store) : ServiceEntry :=
  { id := nextId (st.service_entries.map (fun e => e.id)), date := today,
    procedure_name := procedure_name, user_id := user.id, notes := notes }

/-- C5 (amended): `GET /services` returns the entries ordered by date
descending (each adjacent pair satisfies `dateGe`); and after an
authenticated `POST /services`, a subsequent `GET /services` lists the
newly created entry (dated today) before every strictly older entry —
every entry preceding it is also dated at least today — though entries
already dated today keep their earlier position, so the new entry need
not be the very first element. -/
theorem services_sorted_and_insert_before_older (sess : Sess) (st : Store)
    (user : User) (procedure_name notes : String) (today : Int)
    (h : (get_current_user sess st).1 = some user) :
    (∃ es, (services sess st).1 = Response.servicesPage user es ∧ es.Chain' dateGe) ∧
    (∃ es,
      (services sess ((add_service procedure_name notes today sess st).2.1)).1
        = Response.servicesPage user es ∧
      es.Chain' dateGe ∧
      new_entry procedure_name notes today user st ∈ es ∧
      ∀ pre post, es = pre ++ new_entry procedure_name notes today user st :: post →
        ∀ e ∈ pre, today ≤ e.date) := by
  have hs := services_eq sess st user h
  constructor
  · exact ⟨orderByDateDesc st.service_entries, by rw [hs],
      (sorted_orderByDateDesc st.service_entries).chain'⟩
  · have hadd := add_service_eq procedure_name notes today sess st user h
    have hst2 : (add_service procedure_name notes today sess st).2.1
        = { st with service_entries := st.service_entries ++
            [new_entry procedure_name notes today user st] } := by
      rw [hadd]
      rfl
    have hg2 : (get_current_user sess
        ((add_service procedure_name notes today sess st).2.1)).1 = some user := by
      rw [hst2, get_current_user_set_service_entries]
      exact h
    have hs2 := services_eq sess _ user hg2
    refine ⟨orderByDateDesc (st.service_entries ++
        [new_entry procedure_name notes today user st]), ?_, ?_, ?_, ?_⟩
    · rw [hs2, hst2]
    · exact (sorted_orderByDateDesc _).chain'
    · exact (mem_orderByDateDesc _ _).mpr (by simp)
    · intro pre post heq e he
      have hp : List.Pairwise dateGe
          (pre ++ new_entry procedure_name notes today user st :: post) :=
        heq ▸ sorted_orderByDateDesc _
      exact (List.pairwise_append.mp hp).2.2 e he _ (List.mem_cons_self _ _)

/-- C5 witness: `doctor1` on the seeded store, posting "X"/"Y" on day 0. -/
theorem services_sorted_and_insert_before_older_witness :
    (∃ es, (services (some "doctor1") seededDemo).1
        = Response.servicesPage demoDoctor1 es ∧ es.Chain' dateGe) ∧
    (∃ es,
      (services (some "doctor1") ((add_service "X" "Y" 0 (some "doctor1") seededDemo).2.1)).1
        = Response.servicesPage demoDoctor1 es ∧
      es.Chain' dateGe ∧
      new_entry "X" "Y" 0 demoDoctor1 seededDemo ∈ es ∧
      ∀ pre post, es = pre ++ new_entry "X" "Y" 0 demoDoctor1 seededDemo :: post →
        ∀ e ∈ pre, (0 : Int) ≤ e.date) :=
  services_sorted_and_insert_before_older (some "doctor1") seededDemo demoDoctor1
    "X" "Y" 0 (by rfl)

/-- C5 counterexample to the claim as stated: on the seeded store (which
already holds a service entry dated today), after `doctor1` posts a new
entry, the subsequent `GET /services` lists the seeded "Appendectomy"
entry first and the newly created entry only second — the new entry is
not listed first. -/
theorem services_new_entry_not_listed_first :
    (servicesEntries
        ((services (some "doctor1")
          ((add_service "X" "Y" 0 (some "doctor1") seededDemo).2.1)).1)).head?
      = some { id := 1, date := 0, procedure_name := "Appendectomy",
               user_id := 1, notes := "Routine procedure 1" } ∧
    (servicesEntries
        ((services (some "doctor1")
          ((add_service "X" "Y" 0 (some "doctor1") seededDemo).2.1)).1)).get? 1
      = some { id := 9, date := 0, procedure_name := "X",
               user_id := 1, notes := "Y" } :=
  ⟨rfl, rfl⟩
